import Mathlib

/-!
Verification of the terrain-image print-scaling calculator
(`src/scaling.py`, function `calculate_scaling_factors`).

The Python source works with IEEE floats; we embed the computation over the
rationals `ℚ`, which model the real-arithmetic content of every formula in
the source.  Python's `int(x)` (truncation toward zero) and `round(x)`
(round half to even) are embedded explicitly as `pytrunc` and `pyround`.
-/

namespace Scaling

/-- Paper orientation, as the strings `'portrait'` / `'landscape'` in the source. -/
inductive Orientation where
  | portrait
  | landscape
deriving DecidableEq, Repr

/-- Python 3 `int(x)` applied to a number: truncation toward zero. -/
def pytrunc (x : ℚ) : ℤ :=
  if 0 ≤ x then ⌊x⌋ else ⌈x⌉

/-- Python 3 `round(x)` (no digits argument): round half to even. -/
def pyround (x : ℚ) : ℤ :=
  if x - ⌊x⌋ < 1/2 then ⌊x⌋
  else if 1/2 < x - ⌊x⌋ then ⌊x⌋ + 1
  else if ⌊x⌋ % 2 = 0 then ⌊x⌋ else ⌊x⌋ + 1

/-- `mm_to_pixels(mm, dpi)` from the source:
`inches = mm / 25.4; return int(inches * dpi)`. -/
def mm_to_pixels (mm dpi : ℚ) : ℤ :=
  pytrunc (mm / 25.4 * dpi)

/-- The A-series paper table of the source: name, (width_mm, height_mm). -/
def a_series_mm : List (String × ℚ × ℚ) :=
  [("A0", (841, 1189)), ("A1", (594, 841)), ("A2", (420, 594)), ("A3", (297, 420))]

/-- The standard map-scale denominators of the source. -/
def standard_scales : List ℚ :=
  [100, 200, 250, 500, 1000, 2000, 2500, 5000, 10000, 25000, 50000, 100000, 250000, 500000]

/-- `original_pixels_per_meter = p / m` from the source. -/
def pixelsPerMeter (p m : ℚ) : ℚ := p / m

/-- `required_scale_factor = (dpi / 25.4) * 1000 / (original_pixels_per_meter * scale_ratio)`
from the source. -/
def requiredScaleFactor (ppm dpi S : ℚ) : ℚ :=
  (dpi / 25.4) * 1000 / (ppm * S)

/-- `effective_w_t = w_t * (max_coverage / 100)` (lines 47-48 of the source),
for a paper dimension given in millimeters. -/
def effDim (dpi cov mm : ℚ) : ℚ :=
  (mm_to_pixels mm dpi : ℚ) * (cov / 100)

/-- `max_scale_portrait = min(effective_w_t / w0, effective_h_t / h0)` (line 51). -/
def maxScalePortrait (w0 h0 dpi cov w_mm h_mm : ℚ) : ℚ :=
  min (effDim dpi cov w_mm / w0) (effDim dpi cov h_mm / h0)

/-- `max_scale_landscape = min(effective_h_t / w0, effective_w_t / h0)` (line 53). -/
def maxScaleLandscape (w0 h0 dpi cov w_mm h_mm : ℚ) : ℚ :=
  min (effDim dpi cov h_mm / w0) (effDim dpi cov w_mm / h0)

/-- The per-paper quantities the source computes before its inner scale loop:
paper pixel dimensions, coverage-limited effective dimensions, the two
orientation scale bounds, and the chosen orientation's data. -/
structure PaperCtx where
  w_t : ℤ
  h_t : ℤ
  effective_w_t : ℚ
  effective_h_t : ℚ
  max_scale_portrait : ℚ
  max_scale_landscape : ℚ
  paper_orientation : Orientation
  used_w_t : ℤ
  used_h_t : ℤ
  effective_used_w_t : ℚ
  effective_used_h_t : ℚ
  max_scale_factor : ℚ
  oriented_mm : ℚ × ℚ
deriving Repr

/-- Lines 43-67 of the source: paper pixel conversion, effective (coverage
limited) area, orientation bounds and the orientation decision
(`if max_scale_landscape > max_scale_portrait`). -/
def mkPaperCtx (w0 h0 dpi cov w_mm h_mm : ℚ) : PaperCtx :=
  let w_t : ℤ := mm_to_pixels w_mm dpi
  let h_t : ℤ := mm_to_pixels h_mm dpi
  let effective_w_t : ℚ := effDim dpi cov w_mm
  let effective_h_t : ℚ := effDim dpi cov h_mm
  let max_scale_portrait : ℚ := maxScalePortrait w0 h0 dpi cov w_mm h_mm
  let max_scale_landscape : ℚ := maxScaleLandscape w0 h0 dpi cov w_mm h_mm
  if max_scale_portrait < max_scale_landscape then
    { w_t := w_t, h_t := h_t
      effective_w_t := effective_w_t, effective_h_t := effective_h_t
      max_scale_portrait := max_scale_portrait, max_scale_landscape := max_scale_landscape
      paper_orientation := Orientation.landscape
      used_w_t := h_t, used_h_t := w_t
      effective_used_w_t := effective_h_t, effective_used_h_t := effective_w_t
      max_scale_factor := max_scale_landscape
      oriented_mm := (h_mm, w_mm) }
  else
    { w_t := w_t, h_t := h_t
      effective_w_t := effective_w_t, effective_h_t := effective_h_t
      max_scale_portrait := max_scale_portrait, max_scale_landscape := max_scale_landscape
      paper_orientation := Orientation.portrait
      used_w_t := w_t, used_h_t := h_t
      effective_used_w_t := effective_w_t, effective_used_h_t := effective_h_t
      max_scale_factor := max_scale_portrait
      oriented_mm := (w_mm, h_mm) }

/-- One entry of the result dictionary of the source (lines 106-117).
`actual_scale` is `some n` for the string `'1:n'` and `none` for `'1:ERROR'`. -/
structure ScaleResult where
  total_scaling_factor : ℚ
  final_dimensions_px : ℤ × ℤ
  paper_dimensions_px : ℤ × ℤ
  paper_dimensions_mm : ℚ × ℚ
  paper_orientation : Orientation
  actual_scale : Option ℤ
  coverage_x_percent : ℚ
  coverage_y_percent : ℚ
  fits_on_paper : Bool
  achieves_target_scale : Bool
deriving Repr

/-- Lines 71-117 of the source: the body of the inner loop over target scale
denominators, producing one `ScaleResult` for a given paper size. -/
def computeEntry (w0 h0 p m dpi cov w_mm h_mm S : ℚ) : ScaleResult :=
  let ctx := mkPaperCtx w0 h0 dpi cov w_mm h_mm
  let original_pixels_per_meter := pixelsPerMeter p m
  let required_scale_factor := requiredScaleFactor original_pixels_per_meter dpi S
  let final_scale_factor :=
    if required_scale_factor ≤ ctx.max_scale_factor then required_scale_factor
    else ctx.max_scale_factor
  let achieves_target_scale :=
    if required_scale_factor ≤ ctx.max_scale_factor then true else false
  let final_w := w0 * final_scale_factor
  let final_h := h0 * final_scale_factor
  let final_pixels_per_meter := original_pixels_per_meter * final_scale_factor
  let actual_scale_ratio := ((dpi / 25.4) / final_pixels_per_meter) * 1000
  let coverage_x := final_w / (ctx.used_w_t : ℚ) * 100
  let coverage_y := final_h / (ctx.used_h_t : ℚ) * 100
  { total_scaling_factor := final_scale_factor
    final_dimensions_px := (pytrunc final_w, pytrunc final_h)
    paper_dimensions_px := (ctx.used_w_t, ctx.used_h_t)
    paper_dimensions_mm := ctx.oriented_mm
    paper_orientation := ctx.paper_orientation
    actual_scale := if 0 < actual_scale_ratio then some (pyround actual_scale_ratio) else none
    coverage_x_percent := coverage_x
    coverage_y_percent := coverage_y
    fits_on_paper := true
    achieves_target_scale := achieves_target_scale }

/-- The whole of `calculate_scaling_factors`: for every paper size and every
standard scale denominator, one `ScaleResult`. -/
def calculate_scaling_factors (w0 h0 p m dpi cov : ℚ) :
    List (String × List (ℚ × ScaleResult)) :=
  a_series_mm.map fun pr =>
    (pr.1, standard_scales.map fun S =>
      (S, computeEntry w0 h0 p m dpi cov pr.2.1 pr.2.2 S))

/-- Modelled from the spec's words (step 1), for comparison with the source's
`mm_to_pixels`: "Convert paper physical dimensions to pixel dimensions at the
configured DPI: `pixels = round(mm / 25.4 * dpi)`". -/
def mm_to_pixels_spec (mm dpi : ℚ) : ℤ :=
  pyround (mm / 25.4 * dpi)

/-! ### Unfolding lemmas -/

/-- If landscape strictly beats portrait the source takes the landscape branch. -/
lemma mkPaperCtx_of_lt (w0 h0 dpi cov w_mm h_mm : ℚ)
    (h : maxScalePortrait w0 h0 dpi cov w_mm h_mm < maxScaleLandscape w0 h0 dpi cov w_mm h_mm) :
    mkPaperCtx w0 h0 dpi cov w_mm h_mm =
      { w_t := mm_to_pixels w_mm dpi, h_t := mm_to_pixels h_mm dpi
        effective_w_t := effDim dpi cov w_mm, effective_h_t := effDim dpi cov h_mm
        max_scale_portrait := maxScalePortrait w0 h0 dpi cov w_mm h_mm
        max_scale_landscape := maxScaleLandscape w0 h0 dpi cov w_mm h_mm
        paper_orientation := Orientation.landscape
        used_w_t := mm_to_pixels h_mm dpi, used_h_t := mm_to_pixels w_mm dpi
        effective_used_w_t := effDim dpi cov h_mm, effective_used_h_t := effDim dpi cov w_mm
        max_scale_factor := maxScaleLandscape w0 h0 dpi cov w_mm h_mm
        oriented_mm := (h_mm, w_mm) } := by
  simp only [mkPaperCtx, if_pos h]

/-- Otherwise (ties included) the source takes the portrait branch. -/
lemma mkPaperCtx_of_ge (w0 h0 dpi cov w_mm h_mm : ℚ)
    (h : ¬ maxScalePortrait w0 h0 dpi cov w_mm h_mm < maxScaleLandscape w0 h0 dpi cov w_mm h_mm) :
    mkPaperCtx w0 h0 dpi cov w_mm h_mm =
      { w_t := mm_to_pixels w_mm dpi, h_t := mm_to_pixels h_mm dpi
        effective_w_t := effDim dpi cov w_mm, effective_h_t := effDim dpi cov h_mm
        max_scale_portrait := maxScalePortrait w0 h0 dpi cov w_mm h_mm
        max_scale_landscape := maxScaleLandscape w0 h0 dpi cov w_mm h_mm
        paper_orientation := Orientation.portrait
        used_w_t := mm_to_pixels w_mm dpi, used_h_t := mm_to_pixels h_mm dpi
        effective_used_w_t := effDim dpi cov w_mm, effective_used_h_t := effDim dpi cov h_mm
        max_scale_factor := maxScalePortrait w0 h0 dpi cov w_mm h_mm
        oriented_mm := (w_mm, h_mm) } := by
  simp only [mkPaperCtx, if_neg h]

/-- The final scale factor is the required factor when it fits, else the clamp. -/
lemma total_scaling_factor_eq (w0 h0 p m dpi cov w_mm h_mm S : ℚ) :
    (computeEntry w0 h0 p m dpi cov w_mm h_mm S).total_scaling_factor =
      if requiredScaleFactor (pixelsPerMeter p m) dpi S ≤
          (mkPaperCtx w0 h0 dpi cov w_mm h_mm).max_scale_factor
      then requiredScaleFactor (pixelsPerMeter p m) dpi S
      else (mkPaperCtx w0 h0 dpi cov w_mm h_mm).max_scale_factor := rfl

/-- The achieved flag records exactly the feasibility test. -/
lemma achieves_target_scale_eq (w0 h0 p m dpi cov w_mm h_mm S : ℚ) :
    (computeEntry w0 h0 p m dpi cov w_mm h_mm S).achieves_target_scale =
      if requiredScaleFactor (pixelsPerMeter p m) dpi S ≤
          (mkPaperCtx w0 h0 dpi cov w_mm h_mm).max_scale_factor
      then true else false := rfl

/-- Coverage percentages as stored, in terms of the stored scale factor. -/
lemma coverage_eq (w0 h0 p m dpi cov w_mm h_mm S : ℚ) :
    (computeEntry w0 h0 p m dpi cov w_mm h_mm S).coverage_x_percent =
      w0 * (computeEntry w0 h0 p m dpi cov w_mm h_mm S).total_scaling_factor /
        ((mkPaperCtx w0 h0 dpi cov w_mm h_mm).used_w_t : ℚ) * 100 ∧
    (computeEntry w0 h0 p m dpi cov w_mm h_mm S).coverage_y_percent =
      h0 * (computeEntry w0 h0 p m dpi cov w_mm h_mm S).total_scaling_factor /
        ((mkPaperCtx w0 h0 dpi cov w_mm h_mm).used_h_t : ℚ) * 100 := ⟨rfl, rfl⟩

/-- The stored paper dimensions are the chosen orientation's full pixel dimensions. -/
lemma paper_dimensions_px_eq (w0 h0 p m dpi cov w_mm h_mm S : ℚ) :
    (computeEntry w0 h0 p m dpi cov w_mm h_mm S).paper_dimensions_px =
      ((mkPaperCtx w0 h0 dpi cov w_mm h_mm).used_w_t,
       (mkPaperCtx w0 h0 dpi cov w_mm h_mm).used_h_t) := rfl

/-- The stored orientation is the chosen one. -/
lemma paper_orientation_eq (w0 h0 p m dpi cov w_mm h_mm S : ℚ) :
    (computeEntry w0 h0 p m dpi cov w_mm h_mm S).paper_orientation =
      (mkPaperCtx w0 h0 dpi cov w_mm h_mm).paper_orientation := rfl

/-- The stored actual scale, in terms of the stored scale factor. -/
lemma actual_scale_eq (w0 h0 p m dpi cov w_mm h_mm S : ℚ) :
    (computeEntry w0 h0 p m dpi cov w_mm h_mm S).actual_scale =
      if 0 < ((dpi / 25.4) /
          (pixelsPerMeter p m * (computeEntry w0 h0 p m dpi cov w_mm h_mm S).total_scaling_factor)) * 1000
      then some (pyround (((dpi / 25.4) /
          (pixelsPerMeter p m * (computeEntry w0 h0 p m dpi cov w_mm h_mm S).total_scaling_factor)) * 1000))
      else none := rfl

/-- The final scale factor never exceeds the chosen orientation's maximum. -/
lemma total_le_max (w0 h0 p m dpi cov w_mm h_mm S : ℚ) :
    (computeEntry w0 h0 p m dpi cov w_mm h_mm S).total_scaling_factor ≤
      (mkPaperCtx w0 h0 dpi cov w_mm h_mm).max_scale_factor := by
  rw [total_scaling_factor_eq]
  split_ifs with h
  · exact h
  · exact le_refl _

/-- In either orientation branch, `max_scale_factor` is the min-formula over the
chosen orientation's effective dimensions, and those effective dimensions are
the chosen full pixel dimensions scaled by `cov / 100`. -/
lemma mkPaperCtx_max_min (w0 h0 dpi cov w_mm h_mm : ℚ) :
    (mkPaperCtx w0 h0 dpi cov w_mm h_mm).max_scale_factor =
      min ((mkPaperCtx w0 h0 dpi cov w_mm h_mm).effective_used_w_t / w0)
          ((mkPaperCtx w0 h0 dpi cov w_mm h_mm).effective_used_h_t / h0) ∧
    (mkPaperCtx w0 h0 dpi cov w_mm h_mm).effective_used_w_t =
      ((mkPaperCtx w0 h0 dpi cov w_mm h_mm).used_w_t : ℚ) * (cov / 100) ∧
    (mkPaperCtx w0 h0 dpi cov w_mm h_mm).effective_used_h_t =
      ((mkPaperCtx w0 h0 dpi cov w_mm h_mm).used_h_t : ℚ) * (cov / 100) := by
  by_cases h : maxScalePortrait w0 h0 dpi cov w_mm h_mm <
      maxScaleLandscape w0 h0 dpi cov w_mm h_mm
  · rw [mkPaperCtx_of_lt w0 h0 dpi cov w_mm h_mm h]
    exact ⟨rfl, rfl, rfl⟩
  · rw [mkPaperCtx_of_ge w0 h0 dpi cov w_mm h_mm h]
    exact ⟨rfl, rfl, rfl⟩

/-- Every A-series dimension in the source's table is at least one inch. -/
lemma a_series_mm_large (nm : String) (w_mm h_mm : ℚ)
    (h : (nm, (w_mm, h_mm)) ∈ a_series_mm) : 25.4 ≤ w_mm ∧ 25.4 ≤ h_mm := by
  simp only [a_series_mm, List.mem_cons, List.not_mem_nil, or_false, Prod.mk.injEq] at h
  rcases h with ⟨-, h1, h2⟩ | ⟨-, h1, h2⟩ | ⟨-, h1, h2⟩ | ⟨-, h1, h2⟩ <;>
    subst h1 <;> subst h2 <;> norm_num

/-- Every standard scale denominator in the source's table is positive. -/
lemma standard_scales_pos (S : ℚ) (h : S ∈ standard_scales) : 0 < S := by
  simp only [standard_scales, List.mem_cons, List.not_mem_nil, or_false] at h
  rcases h with h | h | h | h | h | h | h | h | h | h | h | h | h | h <;> rw [h] <;> norm_num

/-- A paper dimension of at least one inch converts to a positive pixel count
at any DPI of at least one. -/
lemma mm_to_pixels_pos (mm dpi : ℚ) (hmm : 25.4 ≤ mm) (hdpi : 1 ≤ dpi) :
    0 < mm_to_pixels mm dpi := by
  have h1 : (1 : ℚ) ≤ mm / 25.4 := by
    rw [le_div_iff₀ (by norm_num)]
    linarith
  have hx : (1 : ℚ) ≤ mm / 25.4 * dpi := by
    calc (1 : ℚ) = 1 * 1 := by norm_num
    _ ≤ mm / 25.4 * dpi := by
        apply mul_le_mul h1 hdpi (by norm_num)
        linarith
  have h0 : (0 : ℚ) ≤ mm / 25.4 * dpi := by linarith
  rw [mm_to_pixels, pytrunc, if_pos h0]
  exact_mod_cast Int.le_floor.mpr (by exact_mod_cast hx)

/-- The chosen orientation's full pixel dimensions are positive for any table
paper and any DPI of at least one. -/
lemma mkPaperCtx_used_pos (w0 h0 dpi cov w_mm h_mm : ℚ)
    (hw : 25.4 ≤ w_mm) (hh : 25.4 ≤ h_mm) (hdpi : 1 ≤ dpi) :
    0 < (mkPaperCtx w0 h0 dpi cov w_mm h_mm).used_w_t ∧
    0 < (mkPaperCtx w0 h0 dpi cov w_mm h_mm).used_h_t := by
  have h1 := mm_to_pixels_pos w_mm dpi hw hdpi
  have h2 := mm_to_pixels_pos h_mm dpi hh hdpi
  by_cases h : maxScalePortrait w0 h0 dpi cov w_mm h_mm <
      maxScaleLandscape w0 h0 dpi cov w_mm h_mm
  · rw [mkPaperCtx_of_lt w0 h0 dpi cov w_mm h_mm h]
    exact ⟨h2, h1⟩
  · rw [mkPaperCtx_of_ge w0 h0 dpi cov w_mm h_mm h]
    exact ⟨h1, h2⟩

/-- Python's `round` is the identity on exact integers. -/
lemma pyround_intCast (n : ℤ) : pyround ((n : ℤ) : ℚ) = n := by
  simp [pyround]

/-! ### Claim theorems -/

/-- **C1**: for every paper size and target scale denominator, the calculator
uses `final_scale_factor = required` with `achieves_target_scale = true`
exactly when `required <= max_scale_factor` (boundary included), where
`required = (dpi / 25.4) * 1000 / (pixels_per_meter * S)`; otherwise it
clamps to `max_scale_factor` with `achieves_target_scale = false`. -/
theorem C1_feasibility_decision (w0 h0 p m dpi cov w_mm h_mm S : ℚ) :
    ((dpi / 25.4) * 1000 / (pixelsPerMeter p m * S) ≤
        (mkPaperCtx w0 h0 dpi cov w_mm h_mm).max_scale_factor →
      (computeEntry w0 h0 p m dpi cov w_mm h_mm S).total_scaling_factor =
          (dpi / 25.4) * 1000 / (pixelsPerMeter p m * S) ∧
      (computeEntry w0 h0 p m dpi cov w_mm h_mm S).achieves_target_scale = true) ∧
    ((mkPaperCtx w0 h0 dpi cov w_mm h_mm).max_scale_factor <
        (dpi / 25.4) * 1000 / (pixelsPerMeter p m * S) →
      (computeEntry w0 h0 p m dpi cov w_mm h_mm S).total_scaling_factor =
          (mkPaperCtx w0 h0 dpi cov w_mm h_mm).max_scale_factor ∧
      (computeEntry w0 h0 p m dpi cov w_mm h_mm S).achieves_target_scale = false) := by
  have hreq : requiredScaleFactor (pixelsPerMeter p m) dpi S =
      (dpi / 25.4) * 1000 / (pixelsPerMeter p m * S) := rfl
  constructor
  · intro h
    rw [total_scaling_factor_eq, achieves_target_scale_eq, hreq, if_pos h, if_pos h]
    exact ⟨rfl, rfl⟩
  · intro h
    have h' : ¬ (dpi / 25.4) * 1000 / (pixelsPerMeter p m * S) ≤
        (mkPaperCtx w0 h0 dpi cov w_mm h_mm).max_scale_factor := not_le.mpr h
    rw [total_scaling_factor_eq, achieves_target_scale_eq, hreq, if_neg h', if_neg h']
    exact ⟨rfl, rfl⟩

/-- **C4**: the calculator computes the portrait maximum
`min(effective_w / w0, effective_h / h0)` and the landscape maximum with the
paper dimensions swapped, keeps the orientation with the larger maximum as
`max_scale_factor`, and resolves ties in favour of portrait. -/
theorem C4_orientation_selection (w0 h0 dpi cov w_mm h_mm : ℚ) :
    (mkPaperCtx w0 h0 dpi cov w_mm h_mm).max_scale_factor =
      max (min (effDim dpi cov w_mm / w0) (effDim dpi cov h_mm / h0))
          (min (effDim dpi cov h_mm / w0) (effDim dpi cov w_mm / h0)) ∧
    (min (effDim dpi cov h_mm / w0) (effDim dpi cov w_mm / h0) ≤
        min (effDim dpi cov w_mm / w0) (effDim dpi cov h_mm / h0) →
      (mkPaperCtx w0 h0 dpi cov w_mm h_mm).paper_orientation = Orientation.portrait ∧
      (mkPaperCtx w0 h0 dpi cov w_mm h_mm).max_scale_factor =
        min (effDim dpi cov w_mm / w0) (effDim dpi cov h_mm / h0)) ∧
    (min (effDim dpi cov w_mm / w0) (effDim dpi cov h_mm / h0) <
        min (effDim dpi cov h_mm / w0) (effDim dpi cov w_mm / h0) →
      (mkPaperCtx w0 h0 dpi cov w_mm h_mm).paper_orientation = Orientation.landscape ∧
      (mkPaperCtx w0 h0 dpi cov w_mm h_mm).max_scale_factor =
        min (effDim dpi cov h_mm / w0) (effDim dpi cov w_mm / h0)) := by
  have hP : maxScalePortrait w0 h0 dpi cov w_mm h_mm =
      min (effDim dpi cov w_mm / w0) (effDim dpi cov h_mm / h0) := rfl
  have hL : maxScaleLandscape w0 h0 dpi cov w_mm h_mm =
      min (effDim dpi cov h_mm / w0) (effDim dpi cov w_mm / h0) := rfl
  by_cases h : maxScalePortrait w0 h0 dpi cov w_mm h_mm <
      maxScaleLandscape w0 h0 dpi cov w_mm h_mm
  · rw [mkPaperCtx_of_lt w0 h0 dpi cov w_mm h_mm h]
    refine ⟨?_, ?_, ?_⟩
    · simp only [← hP, ← hL]
      exact (max_eq_right h.le).symm
    · intro hle
      rw [← hP, ← hL] at hle
      exact absurd h (not_lt.mpr hle)
    · intro _
      exact ⟨rfl, hL⟩
  · rw [mkPaperCtx_of_ge w0 h0 dpi cov w_mm h_mm h]
    refine ⟨?_, ?_, ?_⟩
    · simp only [← hP, ← hL]
      exact (max_eq_left (not_lt.mp h)).symm
    · intro _
      exact ⟨rfl, hP⟩
    · intro hlt
      rw [← hP, ← hL] at hlt
      exact absurd hlt h

/-- **C9**: `fits_on_paper` is the constant `True` in the source (line 115),
independent of every input and of whether the target scale was met. -/
theorem C9_fits_on_paper_constant (w0 h0 p m dpi cov w_mm h_mm S : ℚ) :
    (computeEntry w0 h0 p m dpi cov w_mm h_mm S).fits_on_paper = true := rfl

/-- **C1** witness: the spec's example image (2500x1800 px, 1000 px = 50 m,
300 DPI, full coverage) on A0 paper at target scale 1:1000. -/
theorem C1_feasibility_decision_witness :
    (computeEntry 2500 1800 1000 50 300 100 841 1189 1000).total_scaling_factor =
        (300 / 25.4) * 1000 / (pixelsPerMeter 1000 50 * 1000) ∧
    (computeEntry 2500 1800 1000 50 300 100 841 1189 1000).achieves_target_scale = true := by
  refine (C1_feasibility_decision 2500 1800 1000 50 300 100 841 1189 1000).1 ?_
  have h1 : maxScalePortrait 2500 1800 300 100 841 1189 <
      maxScaleLandscape 2500 1800 300 100 841 1189 := by
    norm_num [maxScalePortrait, maxScaleLandscape, effDim, mm_to_pixels, pytrunc, min_def]
  rw [mkPaperCtx_of_lt 2500 1800 300 100 841 1189 h1]
  norm_num [maxScaleLandscape, effDim, mm_to_pixels, pytrunc, pixelsPerMeter, min_def]

/-- **C4** witness: for the spec's example image on A0 paper the landscape
maximum is strictly larger, so landscape is chosen with its maximum. -/
theorem C4_orientation_selection_witness :
    (mkPaperCtx 2500 1800 300 100 841 1189).paper_orientation = Orientation.landscape ∧
    (mkPaperCtx 2500 1800 300 100 841 1189).max_scale_factor =
      min (effDim 300 100 1189 / 2500) (effDim 300 100 841 / 1800) :=
  (C4_orientation_selection 2500 1800 300 100 841 1189).2.2 (by
    norm_num [effDim, mm_to_pixels, pytrunc, min_def])

/-- **C2** counterexample: the source truncates (`int(...)`), not rounds —
for A3 width 297 mm at 300 DPI it yields 3507 while the spec's
`round(mm / 25.4 * dpi)` yields 3508. -/
theorem C2_rounding_counterexample :
    mm_to_pixels 297 300 = 3507 ∧ mm_to_pixels_spec 297 300 = 3508 ∧
    mm_to_pixels 297 300 ≠ mm_to_pixels_spec 297 300 := by
  refine ⟨?_, ?_, ?_⟩ <;>
    norm_num [mm_to_pixels, mm_to_pixels_spec, pytrunc, pyround]

/-- **C2** amended: for every nonnegative paper dimension and DPI the source
converts millimeters to pixels by truncation, `pixels = floor(mm / 25.4 * dpi)`,
not by rounding to the nearest integer. -/
theorem C2_mm_to_pixels_truncates (mm dpi : ℚ) (hmm : 0 ≤ mm) (hdpi : 0 ≤ dpi) :
    mm_to_pixels mm dpi = ⌊mm / 25.4 * dpi⌋ := by
  have hx : (0 : ℚ) ≤ mm / 25.4 * dpi :=
    mul_nonneg (div_nonneg hmm (by norm_num)) hdpi
  simp only [mm_to_pixels, pytrunc, if_pos hx]

/-- **C2** amended witness: at 297 mm and 300 DPI the truncated conversion is
the floor, 3507. -/
theorem C2_mm_to_pixels_truncates_witness :
    mm_to_pixels 297 300 = ⌊(297 : ℚ) / 25.4 * 300⌋ :=
  C2_mm_to_pixels_truncates 297 300 (by norm_num) (by norm_num)

/-- **C6**: the stored coverage percentages are per-axis values
`final_w / used_paper_width_px * 100` and `final_h / used_paper_height_px * 100`
against the full (not coverage-limited) paper pixel dimensions of the chosen
orientation, with no reordering or min/max normalization. -/
theorem C6_coverage_per_axis (w0 h0 p m dpi cov w_mm h_mm S : ℚ) :
    (computeEntry w0 h0 p m dpi cov w_mm h_mm S).coverage_x_percent =
      w0 * (computeEntry w0 h0 p m dpi cov w_mm h_mm S).total_scaling_factor /
        ((computeEntry w0 h0 p m dpi cov w_mm h_mm S).paper_dimensions_px.1 : ℚ) * 100 ∧
    (computeEntry w0 h0 p m dpi cov w_mm h_mm S).coverage_y_percent =
      h0 * (computeEntry w0 h0 p m dpi cov w_mm h_mm S).total_scaling_factor /
        ((computeEntry w0 h0 p m dpi cov w_mm h_mm S).paper_dimensions_px.2 : ℚ) * 100 ∧
    ((computeEntry w0 h0 p m dpi cov w_mm h_mm S).paper_orientation = Orientation.portrait →
      (computeEntry w0 h0 p m dpi cov w_mm h_mm S).paper_dimensions_px =
        (mm_to_pixels w_mm dpi, mm_to_pixels h_mm dpi)) ∧
    ((computeEntry w0 h0 p m dpi cov w_mm h_mm S).paper_orientation = Orientation.landscape →
      (computeEntry w0 h0 p m dpi cov w_mm h_mm S).paper_dimensions_px =
        (mm_to_pixels h_mm dpi, mm_to_pixels w_mm dpi)) := by
  refine ⟨rfl, rfl, ?_, ?_⟩ <;>
  · intro hor
    rw [paper_orientation_eq] at hor
    rw [paper_dimensions_px_eq]
    by_cases h : maxScalePortrait w0 h0 dpi cov w_mm h_mm <
        maxScaleLandscape w0 h0 dpi cov w_mm h_mm
    · rw [mkPaperCtx_of_lt w0 h0 dpi cov w_mm h_mm h] at hor ⊢
      all_goals exact absurd hor (by simp)
    · rw [mkPaperCtx_of_ge w0 h0 dpi cov w_mm h_mm h] at hor ⊢
      all_goals exact absurd hor (by simp)

/-- **C6** witness: the spec's example on A0 at 1:1000 chooses landscape, so
the stored paper dimensions are the swapped full pixel dimensions. -/
theorem C6_coverage_per_axis_witness :
    (computeEntry 2500 1800 1000 50 300 100 841 1189 1000).paper_dimensions_px =
      (mm_to_pixels 1189 300, mm_to_pixels 841 300) := by
  refine (C6_coverage_per_axis 2500 1800 1000 50 300 100 841 1189 1000).2.2.2 ?_
  have h1 : maxScalePortrait 2500 1800 300 100 841 1189 <
      maxScaleLandscape 2500 1800 300 100 841 1189 := by
    norm_num [maxScalePortrait, maxScaleLandscape, effDim, mm_to_pixels, pytrunc, min_def]
  rw [paper_orientation_eq, mkPaperCtx_of_lt 2500 1800 300 100 841 1189 h1]

/-- **C3**: for every valid input, the final scaled image dimensions never
exceed the effective (coverage-limited) paper pixel dimensions in the chosen
orientation. -/
theorem C3_fits_effective_area (w0 h0 p m dpi cov w_mm h_mm S : ℚ)
    (hw0 : 0 < w0) (hh0 : 0 < h0) (hp : 0 < p) (hm : 0 < m) (hdpi : 0 < dpi)
    (hcov0 : 0 < cov) (hcov1 : cov ≤ 100) :
    w0 * (computeEntry w0 h0 p m dpi cov w_mm h_mm S).total_scaling_factor ≤
      (mkPaperCtx w0 h0 dpi cov w_mm h_mm).effective_used_w_t ∧
    h0 * (computeEntry w0 h0 p m dpi cov w_mm h_mm S).total_scaling_factor ≤
      (mkPaperCtx w0 h0 dpi cov w_mm h_mm).effective_used_h_t := by
  obtain ⟨hmin, -, -⟩ := mkPaperCtx_max_min w0 h0 dpi cov w_mm h_mm
  have hle := total_le_max w0 h0 p m dpi cov w_mm h_mm S
  rw [hmin] at hle
  constructor
  · have h1 : (computeEntry w0 h0 p m dpi cov w_mm h_mm S).total_scaling_factor ≤
        (mkPaperCtx w0 h0 dpi cov w_mm h_mm).effective_used_w_t / w0 :=
      hle.trans (min_le_left _ _)
    calc w0 * (computeEntry w0 h0 p m dpi cov w_mm h_mm S).total_scaling_factor
        ≤ w0 * ((mkPaperCtx w0 h0 dpi cov w_mm h_mm).effective_used_w_t / w0) :=
          mul_le_mul_of_nonneg_left h1 hw0.le
    _ = (mkPaperCtx w0 h0 dpi cov w_mm h_mm).effective_used_w_t := by
          field_simp
  · have h1 : (computeEntry w0 h0 p m dpi cov w_mm h_mm S).total_scaling_factor ≤
        (mkPaperCtx w0 h0 dpi cov w_mm h_mm).effective_used_h_t / h0 :=
      hle.trans (min_le_right _ _)
    calc h0 * (computeEntry w0 h0 p m dpi cov w_mm h_mm S).total_scaling_factor
        ≤ h0 * ((mkPaperCtx w0 h0 dpi cov w_mm h_mm).effective_used_h_t / h0) :=
          mul_le_mul_of_nonneg_left h1 hh0.le
    _ = (mkPaperCtx w0 h0 dpi cov w_mm h_mm).effective_used_h_t := by
          field_simp

/-- **C3** witness: the spec's example image on A0 at 1:1000 stays within the
effective paper area. -/
theorem C3_fits_effective_area_witness :
    2500 * (computeEntry 2500 1800 1000 50 300 100 841 1189 1000).total_scaling_factor ≤
      (mkPaperCtx 2500 1800 300 100 841 1189).effective_used_w_t ∧
    1800 * (computeEntry 2500 1800 1000 50 300 100 841 1189 1000).total_scaling_factor ≤
      (mkPaperCtx 2500 1800 300 100 841 1189).effective_used_h_t :=
  C3_fits_effective_area 2500 1800 1000 50 300 100 841 1189 1000
    (by norm_num) (by norm_num) (by norm_num) (by norm_num) (by norm_num)
    (by norm_num) (by norm_num)

/-- A coverage percentage is exactly `cov` on the axis that attains the
effective-fit minimum. -/
lemma axis_cov_eq (A T cov : ℚ) (hA : 0 < A) (hT : 0 < T) :
    A * (T * (cov / 100) / A) / T * 100 = cov := by
  field_simp
  ring

/-- A coverage percentage is at most `cov` on an axis whose scale factor is at
most the axis's effective-fit bound. -/
lemma axis_cov_le (A x T cov : ℚ) (hA : 0 < A) (hT : 0 < T)
    (hx : x ≤ T * (cov / 100) / A) : A * x / T * 100 ≤ cov := by
  have h1 : A * x ≤ T * (cov / 100) := by
    calc A * x ≤ A * (T * (cov / 100) / A) := mul_le_mul_of_nonneg_left hx hA.le
    _ = T * (cov / 100) := by field_simp; ring
  calc A * x / T * 100 ≤ T * (cov / 100) / T * 100 := by gcongr
  _ = cov := by field_simp; ring

/-- On the spec's example image, A0 picks landscape strictly. -/
lemma exampleA0_landscape_lt :
    maxScalePortrait 2500 1800 300 100 841 1189 <
      maxScaleLandscape 2500 1800 300 100 841 1189 := by
  norm_num [maxScalePortrait, maxScaleLandscape, effDim, mm_to_pixels, pytrunc, min_def]

/-- **C7**: for every valid input, paper size of the table and standard scale,
the produced result has a positive final scale factor and a positive final
pixels-per-meter, so the `'1:ERROR'` branch guarding a nonpositive actual
scale ratio is never taken. -/
theorem C7_no_degenerate_scale (w0 h0 p m cov w_mm h_mm S : ℚ) (d : ℕ) (nm : String)
    (hw0 : 0 < w0) (hh0 : 0 < h0) (hp : 0 < p) (hm : 0 < m) (hd : 0 < d)
    (hcov0 : 0 < cov) (hcov1 : cov ≤ 100)
    (hmem : (nm, (w_mm, h_mm)) ∈ a_series_mm) (hS : S ∈ standard_scales) :
    0 < (computeEntry w0 h0 p m (d : ℚ) cov w_mm h_mm S).total_scaling_factor ∧
    0 < pixelsPerMeter p m *
      (computeEntry w0 h0 p m (d : ℚ) cov w_mm h_mm S).total_scaling_factor ∧
    (computeEntry w0 h0 p m (d : ℚ) cov w_mm h_mm S).actual_scale ≠ none := by
  obtain ⟨hwmm, hhmm⟩ := a_series_mm_large nm w_mm h_mm hmem
  have hSpos := standard_scales_pos S hS
  have hd1 : (1 : ℚ) ≤ (d : ℚ) := by exact_mod_cast hd
  have hdq : (0 : ℚ) < (d : ℚ) := by linarith
  have hppm : 0 < pixelsPerMeter p m := div_pos hp hm
  have hreq : 0 < requiredScaleFactor (pixelsPerMeter p m) (d : ℚ) S := by
    unfold requiredScaleFactor
    positivity
  obtain ⟨husedw, husedh⟩ := mkPaperCtx_used_pos w0 h0 (d : ℚ) cov w_mm h_mm hwmm hhmm hd1
  have hWq : (0 : ℚ) < ((mkPaperCtx w0 h0 (d : ℚ) cov w_mm h_mm).used_w_t : ℚ) := by
    exact_mod_cast husedw
  have hHq : (0 : ℚ) < ((mkPaperCtx w0 h0 (d : ℚ) cov w_mm h_mm).used_h_t : ℚ) := by
    exact_mod_cast husedh
  obtain ⟨hmin, heffw, heffh⟩ := mkPaperCtx_max_min w0 h0 (d : ℚ) cov w_mm h_mm
  have hmsf : 0 < (mkPaperCtx w0 h0 (d : ℚ) cov w_mm h_mm).max_scale_factor := by
    rw [hmin, heffw, heffh]
    exact lt_min (div_pos (by positivity) hw0) (div_pos (by positivity) hh0)
  have htot : 0 < (computeEntry w0 h0 p m (d : ℚ) cov w_mm h_mm S).total_scaling_factor := by
    rw [total_scaling_factor_eq]
    split_ifs
    · exact hreq
    · exact hmsf
  have hfinppm : 0 < pixelsPerMeter p m *
      (computeEntry w0 h0 p m (d : ℚ) cov w_mm h_mm S).total_scaling_factor :=
    mul_pos hppm htot
  refine ⟨htot, hfinppm, ?_⟩
  have hval : 0 < ((d : ℚ) / 25.4) /
      (pixelsPerMeter p m *
        (computeEntry w0 h0 p m (d : ℚ) cov w_mm h_mm S).total_scaling_factor) * 1000 := by
    positivity
  rw [actual_scale_eq, if_pos hval]
  exact Option.some_ne_none _

/-- **C7** witness: the spec's example on A0 at 1:1000 with 300 DPI. -/
theorem C7_no_degenerate_scale_witness :
    0 < (computeEntry 2500 1800 1000 50 ((300 : ℕ) : ℚ) 100 841 1189 1000).total_scaling_factor ∧
    0 < pixelsPerMeter 1000 50 *
      (computeEntry 2500 1800 1000 50 ((300 : ℕ) : ℚ) 100 841 1189 1000).total_scaling_factor ∧
    (computeEntry 2500 1800 1000 50 ((300 : ℕ) : ℚ) 100 841 1189 1000).actual_scale ≠ none :=
  C7_no_degenerate_scale 2500 1800 1000 50 100 841 1189 1000 300 "A0"
    (by norm_num) (by norm_num) (by norm_num) (by norm_num) (by norm_num)
    (by norm_num) (by norm_num) (by norm_num [a_series_mm]) (by norm_num [standard_scales])

/-- **C5**: whenever the target scale `1:n` is achieved, the actual scale ratio
`((dpi / 25.4) / (pixels_per_meter * final_scale_factor)) * 1000` equals `n`
exactly, so its rounding recovers the target denominator: the stored actual
scale is `some n`. -/
theorem C5_round_trip (w0 h0 p m dpi cov w_mm h_mm : ℚ) (n : ℤ)
    (hp : 0 < p) (hm : 0 < m) (hdpi : 0 < dpi) (hn : 0 < n)
    (hach : (computeEntry w0 h0 p m dpi cov w_mm h_mm (n : ℚ)).achieves_target_scale = true) :
    (dpi / 25.4) / (pixelsPerMeter p m *
      (computeEntry w0 h0 p m dpi cov w_mm h_mm (n : ℚ)).total_scaling_factor) * 1000 = (n : ℚ) ∧
    (computeEntry w0 h0 p m dpi cov w_mm h_mm (n : ℚ)).actual_scale = some n := by
  rw [achieves_target_scale_eq] at hach
  split_ifs at hach with h
  have htot : (computeEntry w0 h0 p m dpi cov w_mm h_mm (n : ℚ)).total_scaling_factor =
      requiredScaleFactor (pixelsPerMeter p m) dpi (n : ℚ) := by
    rw [total_scaling_factor_eq, if_pos h]
  have hnq : (0 : ℚ) < (n : ℚ) := by exact_mod_cast hn
  have hp' : p ≠ 0 := ne_of_gt hp
  have hm' : m ≠ 0 := ne_of_gt hm
  have hd' : dpi ≠ 0 := ne_of_gt hdpi
  have hn' : (n : ℚ) ≠ 0 := ne_of_gt hnq
  have hval : (dpi / 25.4) / (pixelsPerMeter p m *
      (computeEntry w0 h0 p m dpi cov w_mm h_mm (n : ℚ)).total_scaling_factor) * 1000 =
      (n : ℚ) := by
    rw [htot]
    unfold requiredScaleFactor pixelsPerMeter
    field_simp
    ring
  refine ⟨hval, ?_⟩
  rw [actual_scale_eq, hval, if_pos hnq, pyround_intCast]

/-- **C5** witness: the spec's example on A0 achieves 1:1000 and the stored
actual scale is `some 1000`. -/
theorem C5_round_trip_witness :
    (300 / 25.4) / (pixelsPerMeter 1000 50 *
      (computeEntry 2500 1800 1000 50 300 100 841 1189 ((1000 : ℤ) : ℚ)).total_scaling_factor) *
      1000 = ((1000 : ℤ) : ℚ) ∧
    (computeEntry 2500 1800 1000 50 300 100 841 1189 ((1000 : ℤ) : ℚ)).actual_scale =
      some 1000 := by
  refine C5_round_trip 2500 1800 1000 50 300 100 841 1189 1000
    (by norm_num) (by norm_num) (by norm_num) (by norm_num) ?_
  rw [achieves_target_scale_eq, mkPaperCtx_of_lt 2500 1800 300 100 841 1189 exampleA0_landscape_lt]
  norm_num [requiredScaleFactor, pixelsPerMeter, maxScaleLandscape, effDim, mm_to_pixels,
    pytrunc, min_def]

/-- **C10**: in the clamped case (`achieves_target_scale = false`) the larger
coverage percentage equals `max_coverage`: the clamped image exactly fills the
binding axis of the effective usable area. -/
theorem C10_clamp_fills_binding_axis (w0 h0 p m cov w_mm h_mm S : ℚ) (d : ℕ) (nm : String)
    (hw0 : 0 < w0) (hh0 : 0 < h0) (hp : 0 < p) (hm : 0 < m) (hd : 0 < d)
    (hcov0 : 0 < cov) (hcov1 : cov ≤ 100)
    (hmem : (nm, (w_mm, h_mm)) ∈ a_series_mm)
    (hclamp : (computeEntry w0 h0 p m (d : ℚ) cov w_mm h_mm S).achieves_target_scale = false) :
    max (computeEntry w0 h0 p m (d : ℚ) cov w_mm h_mm S).coverage_x_percent
        (computeEntry w0 h0 p m (d : ℚ) cov w_mm h_mm S).coverage_y_percent = cov := by
  obtain ⟨hwmm, hhmm⟩ := a_series_mm_large nm w_mm h_mm hmem
  have hd1 : (1 : ℚ) ≤ (d : ℚ) := by exact_mod_cast hd
  obtain ⟨husedw, husedh⟩ := mkPaperCtx_used_pos w0 h0 (d : ℚ) cov w_mm h_mm hwmm hhmm hd1
  have hWq : (0 : ℚ) < ((mkPaperCtx w0 h0 (d : ℚ) cov w_mm h_mm).used_w_t : ℚ) := by
    exact_mod_cast husedw
  have hHq : (0 : ℚ) < ((mkPaperCtx w0 h0 (d : ℚ) cov w_mm h_mm).used_h_t : ℚ) := by
    exact_mod_cast husedh
  rw [achieves_target_scale_eq] at hclamp
  split_ifs at hclamp with h
  case _ =>
    have htot : (computeEntry w0 h0 p m (d : ℚ) cov w_mm h_mm S).total_scaling_factor =
        (mkPaperCtx w0 h0 (d : ℚ) cov w_mm h_mm).max_scale_factor := by
      rw [total_scaling_factor_eq, if_neg h]
    obtain ⟨hcx, hcy⟩ := coverage_eq w0 h0 p m (d : ℚ) cov w_mm h_mm S
    obtain ⟨hmin, heffw, heffh⟩ := mkPaperCtx_max_min w0 h0 (d : ℚ) cov w_mm h_mm
    rw [heffw, heffh] at hmin
    rcases min_cases (((mkPaperCtx w0 h0 (d : ℚ) cov w_mm h_mm).used_w_t : ℚ) * (cov / 100) / w0)
        (((mkPaperCtx w0 h0 (d : ℚ) cov w_mm h_mm).used_h_t : ℚ) * (cov / 100) / h0) with
      ⟨heq, hcmp⟩ | ⟨heq, hcmp⟩
    · have hx : (computeEntry w0 h0 p m (d : ℚ) cov w_mm h_mm S).coverage_x_percent = cov := by
        rw [hcx, htot, hmin, heq]
        exact axis_cov_eq w0 _ cov hw0 hWq
      have hy : (computeEntry w0 h0 p m (d : ℚ) cov w_mm h_mm S).coverage_y_percent ≤ cov := by
        rw [hcy, htot, hmin, heq]
        exact axis_cov_le h0 _ _ cov hh0 hHq hcmp
      rw [hx]
      exact max_eq_left (hy.trans_eq rfl)
    · have hy : (computeEntry w0 h0 p m (d : ℚ) cov w_mm h_mm S).coverage_y_percent = cov := by
        rw [hcy, htot, hmin, heq]
        exact axis_cov_eq h0 _ cov hh0 hHq
      have hx : (computeEntry w0 h0 p m (d : ℚ) cov w_mm h_mm S).coverage_x_percent ≤ cov := by
        rw [hcx, htot, hmin, heq]
        exact axis_cov_le w0 _ _ cov hw0 hWq hcmp.le
      rw [hy]
      exact max_eq_right hx

/-- **C10** witness: the spec's example on A0 at target 1:100 is clamped, and
the larger coverage percentage is exactly 100. -/
theorem C10_clamp_fills_binding_axis_witness :
    max (computeEntry 2500 1800 1000 50 ((300 : ℕ) : ℚ) 100 841 1189 100).coverage_x_percent
        (computeEntry 2500 1800 1000 50 ((300 : ℕ) : ℚ) 100 841 1189 100).coverage_y_percent =
      100 := by
  refine C10_clamp_fills_binding_axis 2500 1800 1000 50 100 841 1189 100 300 "A0"
    (by norm_num) (by norm_num) (by norm_num) (by norm_num) (by norm_num)
    (by norm_num) (by norm_num) (by norm_num [a_series_mm]) ?_
  have hcast : ((300 : ℕ) : ℚ) = 300 := by norm_num
  rw [achieves_target_scale_eq, hcast,
    mkPaperCtx_of_lt 2500 1800 300 100 841 1189 exampleA0_landscape_lt]
  norm_num [requiredScaleFactor, pixelsPerMeter, maxScaleLandscape, effDim, mm_to_pixels,
    pytrunc, min_def]

/-- Swapping the image dimensions turns the portrait bound into the landscape
bound. -/
lemma maxScalePortrait_swap (w0 h0 dpi cov w_mm h_mm : ℚ) :
    maxScalePortrait h0 w0 dpi cov w_mm h_mm = maxScaleLandscape w0 h0 dpi cov w_mm h_mm := by
  unfold maxScalePortrait maxScaleLandscape
  exact min_comm _ _

/-- Swapping the image dimensions turns the landscape bound into the portrait
bound. -/
lemma maxScaleLandscape_swap (w0 h0 dpi cov w_mm h_mm : ℚ) :
    maxScaleLandscape h0 w0 dpi cov w_mm h_mm = maxScalePortrait w0 h0 dpi cov w_mm h_mm := by
  unfold maxScalePortrait maxScaleLandscape
  exact min_comm _ _

/-- A tie between the portrait and landscape bounds forces a square image or a
square effective paper area. -/
lemma min_div_tie (a b x y : ℚ) (ha : 0 < a) (hb : 0 < b) (hx : 0 < x) (hy : 0 < y)
    (h : min (a / x) (b / y) = min (b / x) (a / y)) : x = y ∨ a = b := by
  by_contra hc
  push_neg at hc
  obtain ⟨hxy, hab⟩ := hc
  rcases lt_or_gt_of_ne hab with h1 | h1 <;> rcases lt_or_gt_of_ne hxy with h2 | h2
  · have ha1 : a / y < a / x := div_lt_div_of_pos_left ha hx h2
    have ha2 : a / y < b / y := (div_lt_div_iff_of_pos_right hy).mpr h1
    have hlt : min (b / x) (a / y) < min (a / x) (b / y) :=
      lt_of_le_of_lt (min_le_right _ _) (lt_min ha1 ha2)
    exact absurd h (ne_of_gt hlt)
  · have hb1 : a / x < b / x := (div_lt_div_iff_of_pos_right hx).mpr h1
    have hb2 : a / x < a / y := div_lt_div_of_pos_left ha hy h2
    have hlt : min (a / x) (b / y) < min (b / x) (a / y) :=
      lt_of_le_of_lt (min_le_left _ _) (lt_min hb1 hb2)
    exact absurd h (ne_of_lt hlt)
  · have h3 : b / y < b / x := div_lt_div_of_pos_left hb hx h2
    have h4 : b / y < a / y := (div_lt_div_iff_of_pos_right hy).mpr h1
    have hlt : min (a / x) (b / y) < min (b / x) (a / y) :=
      lt_of_le_of_lt (min_le_right _ _) (lt_min h3 h4)
    exact absurd h (ne_of_lt hlt)
  · have h3 : b / x < a / x := (div_lt_div_iff_of_pos_right hx).mpr h1
    have h4 : b / x < b / y := div_lt_div_of_pos_left hb hy h2
    have hlt : min (b / x) (a / y) < min (a / x) (b / y) :=
      lt_of_le_of_lt (min_le_left _ _) (lt_min h3 h4)
    exact absurd h (ne_of_gt hlt)

/-- **C8**: swapping the image's width and height leaves the final scale factor
unchanged and swaps (or, for a square image, preserves) the pair of coverage
percentages, i.e. the outputs agree after smallest-first normalization; when
the two orientation bounds differ, the chosen orientation flips. -/
theorem C8_swap_symmetry (w0 h0 p m cov w_mm h_mm S : ℚ) (d : ℕ) (nm : String)
    (hw0 : 0 < w0) (hh0 : 0 < h0) (hp : 0 < p) (hm : 0 < m) (hd : 0 < d)
    (hcov0 : 0 < cov) (hcov1 : cov ≤ 100)
    (hmem : (nm, (w_mm, h_mm)) ∈ a_series_mm) :
    (computeEntry h0 w0 p m (d : ℚ) cov w_mm h_mm S).total_scaling_factor =
      (computeEntry w0 h0 p m (d : ℚ) cov w_mm h_mm S).total_scaling_factor ∧
    (((computeEntry h0 w0 p m (d : ℚ) cov w_mm h_mm S).coverage_x_percent =
        (computeEntry w0 h0 p m (d : ℚ) cov w_mm h_mm S).coverage_y_percent ∧
      (computeEntry h0 w0 p m (d : ℚ) cov w_mm h_mm S).coverage_y_percent =
        (computeEntry w0 h0 p m (d : ℚ) cov w_mm h_mm S).coverage_x_percent) ∨
     ((computeEntry h0 w0 p m (d : ℚ) cov w_mm h_mm S).coverage_x_percent =
        (computeEntry w0 h0 p m (d : ℚ) cov w_mm h_mm S).coverage_x_percent ∧
      (computeEntry h0 w0 p m (d : ℚ) cov w_mm h_mm S).coverage_y_percent =
        (computeEntry w0 h0 p m (d : ℚ) cov w_mm h_mm S).coverage_y_percent)) ∧
    (maxScalePortrait w0 h0 (d : ℚ) cov w_mm h_mm ≠
        maxScaleLandscape w0 h0 (d : ℚ) cov w_mm h_mm →
      (computeEntry h0 w0 p m (d : ℚ) cov w_mm h_mm S).paper_orientation ≠
        (computeEntry w0 h0 p m (d : ℚ) cov w_mm h_mm S).paper_orientation) := by
  obtain ⟨hwmm, hhmm⟩ := a_series_mm_large nm w_mm h_mm hmem
  have hd1 : (1 : ℚ) ≤ (d : ℚ) := by exact_mod_cast hd
  have haw : 0 < effDim (d : ℚ) cov w_mm := by
    have := mm_to_pixels_pos w_mm (d : ℚ) hwmm hd1
    have hcast : (0 : ℚ) < (mm_to_pixels w_mm (d : ℚ) : ℚ) := by exact_mod_cast this
    unfold effDim
    positivity
  have hah : 0 < effDim (d : ℚ) cov h_mm := by
    have := mm_to_pixels_pos h_mm (d : ℚ) hhmm hd1
    have hcast : (0 : ℚ) < (mm_to_pixels h_mm (d : ℚ) : ℚ) := by exact_mod_cast this
    unfold effDim
    positivity
  have hswapP := maxScalePortrait_swap w0 h0 (d : ℚ) cov w_mm h_mm
  have hswapL := maxScaleLandscape_swap w0 h0 (d : ℚ) cov w_mm h_mm
  obtain ⟨hcx', hcy'⟩ := coverage_eq h0 w0 p m (d : ℚ) cov w_mm h_mm S
  obtain ⟨hcx, hcy⟩ := coverage_eq w0 h0 p m (d : ℚ) cov w_mm h_mm S
  rcases lt_trichotomy (maxScalePortrait w0 h0 (d : ℚ) cov w_mm h_mm)
      (maxScaleLandscape w0 h0 (d : ℚ) cov w_mm h_mm) with hlt | heqc | hgt
  · -- original landscape, swapped portrait
    have hctx := mkPaperCtx_of_lt w0 h0 (d : ℚ) cov w_mm h_mm hlt
    have hnot : ¬ maxScalePortrait h0 w0 (d : ℚ) cov w_mm h_mm <
        maxScaleLandscape h0 w0 (d : ℚ) cov w_mm h_mm := by
      rw [hswapP, hswapL]
      exact not_lt.mpr hlt.le
    have hctx' := mkPaperCtx_of_ge h0 w0 (d : ℚ) cov w_mm h_mm hnot
    have hmsf : (mkPaperCtx h0 w0 (d : ℚ) cov w_mm h_mm).max_scale_factor =
        (mkPaperCtx w0 h0 (d : ℚ) cov w_mm h_mm).max_scale_factor := by
      rw [hctx, hctx']
      simpa using hswapP
    have htote : (computeEntry h0 w0 p m (d : ℚ) cov w_mm h_mm S).total_scaling_factor =
        (computeEntry w0 h0 p m (d : ℚ) cov w_mm h_mm S).total_scaling_factor := by
      rw [total_scaling_factor_eq, total_scaling_factor_eq, hmsf]
    refine ⟨htote, Or.inl ⟨?_, ?_⟩, fun _ => ?_⟩
    · rw [hcx', hcy, htote, hctx, hctx']
    · rw [hcy', hcx, htote, hctx, hctx']
    · rw [paper_orientation_eq, paper_orientation_eq, hctx, hctx']
      simp
  · -- tie: both runs choose portrait
    have hnot : ¬ maxScalePortrait w0 h0 (d : ℚ) cov w_mm h_mm <
        maxScaleLandscape w0 h0 (d : ℚ) cov w_mm h_mm := not_lt.mpr heqc.ge
    have hnot' : ¬ maxScalePortrait h0 w0 (d : ℚ) cov w_mm h_mm <
        maxScaleLandscape h0 w0 (d : ℚ) cov w_mm h_mm := by
      rw [hswapP, hswapL]
      exact not_lt.mpr heqc.le
    have hctx := mkPaperCtx_of_ge w0 h0 (d : ℚ) cov w_mm h_mm hnot
    have hctx' := mkPaperCtx_of_ge h0 w0 (d : ℚ) cov w_mm h_mm hnot'
    have hmsf : (mkPaperCtx h0 w0 (d : ℚ) cov w_mm h_mm).max_scale_factor =
        (mkPaperCtx w0 h0 (d : ℚ) cov w_mm h_mm).max_scale_factor := by
      rw [hctx, hctx']
      simpa [hswapP] using heqc.symm
    have htote : (computeEntry h0 w0 p m (d : ℚ) cov w_mm h_mm S).total_scaling_factor =
        (computeEntry w0 h0 p m (d : ℚ) cov w_mm h_mm S).total_scaling_factor := by
      rw [total_scaling_factor_eq, total_scaling_factor_eq, hmsf]
    have htie : w0 = h0 ∨ effDim (d : ℚ) cov w_mm = effDim (d : ℚ) cov h_mm := by
      refine min_div_tie (effDim (d : ℚ) cov w_mm) (effDim (d : ℚ) cov h_mm) w0 h0
        haw hah hw0 hh0 ?_
      unfold maxScalePortrait maxScaleLandscape at heqc
      exact heqc
    refine ⟨htote, ?_, fun hne => absurd heqc hne⟩
    rcases htie with hw0h0 | heff
    · refine Or.inr ⟨?_, ?_⟩
      · rw [hcx', hcx, htote, hctx, hctx', hw0h0]
      · rw [hcy', hcy, htote, hctx, hctx', hw0h0]
    · have hwt : (mm_to_pixels w_mm (d : ℚ) : ℚ) = (mm_to_pixels h_mm (d : ℚ) : ℚ) := by
        unfold effDim at heff
        have hcovne : cov / 100 ≠ 0 := by positivity
        exact mul_right_cancel₀ hcovne heff
      refine Or.inl ⟨?_, ?_⟩
      · rw [hcx', hcy, htote, hctx, hctx']
        dsimp only
        rw [hwt]
      · rw [hcy', hcx, htote, hctx, hctx']
        dsimp only
        rw [hwt]
  · -- original portrait, swapped landscape
    have hctx := mkPaperCtx_of_ge w0 h0 (d : ℚ) cov w_mm h_mm (not_lt.mpr hgt.le)
    have hlt' : maxScalePortrait h0 w0 (d : ℚ) cov w_mm h_mm <
        maxScaleLandscape h0 w0 (d : ℚ) cov w_mm h_mm := by
      rw [hswapP, hswapL]
      exact hgt
    have hctx' := mkPaperCtx_of_lt h0 w0 (d : ℚ) cov w_mm h_mm hlt'
    have hmsf : (mkPaperCtx h0 w0 (d : ℚ) cov w_mm h_mm).max_scale_factor =
        (mkPaperCtx w0 h0 (d : ℚ) cov w_mm h_mm).max_scale_factor := by
      rw [hctx, hctx']
      simpa using hswapL
    have htote : (computeEntry h0 w0 p m (d : ℚ) cov w_mm h_mm S).total_scaling_factor =
        (computeEntry w0 h0 p m (d : ℚ) cov w_mm h_mm S).total_scaling_factor := by
      rw [total_scaling_factor_eq, total_scaling_factor_eq, hmsf]
    refine ⟨htote, Or.inl ⟨?_, ?_⟩, fun _ => ?_⟩
    · rw [hcx', hcy, htote, hctx, hctx']
    · rw [hcy', hcx, htote, hctx, hctx']
    · rw [paper_orientation_eq, paper_orientation_eq, hctx, hctx']
      simp

/-- **C8** witness: the spec's example on A0 at 1:1000 — the swapped image
reproduces the scale factor, swaps the coverage pair, and flips orientation. -/
theorem C8_swap_symmetry_witness :
    (computeEntry 1800 2500 1000 50 ((300 : ℕ) : ℚ) 100 841 1189 1000).total_scaling_factor =
      (computeEntry 2500 1800 1000 50 ((300 : ℕ) : ℚ) 100 841 1189 1000).total_scaling_factor ∧
    (((computeEntry 1800 2500 1000 50 ((300 : ℕ) : ℚ) 100 841 1189 1000).coverage_x_percent =
        (computeEntry 2500 1800 1000 50 ((300 : ℕ) : ℚ) 100 841 1189 1000).coverage_y_percent ∧
      (computeEntry 1800 2500 1000 50 ((300 : ℕ) : ℚ) 100 841 1189 1000).coverage_y_percent =
        (computeEntry 2500 1800 1000 50 ((300 : ℕ) : ℚ) 100 841 1189 1000).coverage_x_percent) ∨
     ((computeEntry 1800 2500 1000 50 ((300 : ℕ) : ℚ) 100 841 1189 1000).coverage_x_percent =
        (computeEntry 2500 1800 1000 50 ((300 : ℕ) : ℚ) 100 841 1189 1000).coverage_x_percent ∧
      (computeEntry 1800 2500 1000 50 ((300 : ℕ) : ℚ) 100 841 1189 1000).coverage_y_percent =
        (computeEntry 2500 1800 1000 50 ((300 : ℕ) : ℚ) 100 841 1189 1000).coverage_y_percent)) ∧
    (maxScalePortrait 2500 1800 ((300 : ℕ) : ℚ) 100 841 1189 ≠
        maxScaleLandscape 2500 1800 ((300 : ℕ) : ℚ) 100 841 1189 →
      (computeEntry 1800 2500 1000 50 ((300 : ℕ) : ℚ) 100 841 1189 1000).paper_orientation ≠
        (computeEntry 2500 1800 1000 50 ((300 : ℕ) : ℚ) 100 841 1189 1000).paper_orientation) :=
  C8_swap_symmetry 2500 1800 1000 50 100 841 1189 1000 300 "A0"
    (by norm_num) (by norm_num) (by norm_num) (by norm_num) (by norm_num)
    (by norm_num) (by norm_num) (by norm_num [a_series_mm])

end Scaling
